import Mathlib

/-!
Shallow embedding of the veo-3-generate repository:
the client orchestrator (src/App.tsx, handleGenerate), the edge-runtime
generate proxy (api/generate.ts, second handler), and the video stream
proxy (api/video.ts).  HTTP exchanges are modelled by explicit records
describing the responses the environment returns; the functions below
mirror the control flow of the source line by line.
-/

namespace Veo

/-- JavaScript `opt || dflt` on an optional string: `null`/`undefined` and
the empty string are falsy, any other string is returned unchanged. -/
def jsOrS (o : Option String) (dflt : String) : String :=
  match o with
  | some s => if s = "" then dflt else s
  | none => dflt

/-- Fetch-API `Response.ok`: status in the range 200..299. -/
def httpOk (status : Nat) : Bool :=
  decide (200 ≤ status) && decide (status ≤ 299)

/-- JavaScript `String.prototype.trim` (ASCII fragment): strip leading
and trailing whitespace characters. -/
def jsTrim (s : String) : String :=
  String.mk
    (((s.data.dropWhile Char.isWhitespace).reverse.dropWhile
      Char.isWhitespace).reverse)

/-- Whether `l` starts with `pat`. -/
def listStartsWith : List Char → List Char → Bool
  | _, [] => true
  | [], _ :: _ => false
  | a :: as, b :: bs => a == b && listStartsWith as bs

/-- Whether `pat` occurs as a contiguous run inside `l`. -/
def listIncludes (pat : List Char) : List Char → Bool
  | [] => listStartsWith [] pat
  | c :: tl => listStartsWith (c :: tl) pat || listIncludes pat tl

/-- JavaScript `String.prototype.includes`: `pat` occurs as a contiguous
substring of `s`. -/
def strIncludes (s pat : String) : Bool :=
  listIncludes pat.data s.data

/-- Upper-case hexadecimal digit for `n < 16`. -/
def hexUpper (n : Nat) : Char :=
  if n < 10 then Char.ofNat (48 + n) else Char.ofNat (55 + n)

/-- Characters left unescaped by JavaScript `encodeURIComponent`:
`A-Z a-z 0-9 - _ . ! ~ * ' ( )` (39 is the apostrophe code point). -/
def uriUnreserved (c : Char) : Bool :=
  c.isAlphanum || c = '-' || c = '_' || c = '.' || c = '!' || c = '~' ||
    c = '*' || c.toNat = 39 || c = '(' || c = ')'

/-- Percent-encoding of one character, as `encodeURIComponent` does for
code points below 128 (the only ones arising in this repository). -/
def percentEncodeChar (c : Char) : List Char :=
  if uriUnreserved c then [c]
  else ['%', hexUpper (c.toNat / 16), hexUpper (c.toNat % 16)]

/-- JavaScript `encodeURIComponent`, restricted to ASCII strings. -/
def encodeURIComponent (s : String) : String :=
  String.mk (s.data.flatMap percentEncodeChar)

/-- Lower-case hexadecimal digit for `n < 16`. -/
def hexLower (n : Nat) : Char :=
  if n < 10 then Char.ofNat (48 + n) else Char.ofNat (87 + n)

/-- Escaping of one character inside a JSON string literal, as
`JSON.stringify` performs it. -/
def jsonEscapeChar (c : Char) : List Char :=
  if c = '"' then ['\\', '"']
  else if c = '\\' then ['\\', '\\']
  else if c.toNat = 8 then ['\\', 'b']
  else if c.toNat = 9 then ['\\', 't']
  else if c.toNat = 10 then ['\\', 'n']
  else if c.toNat = 12 then ['\\', 'f']
  else if c.toNat = 13 then ['\\', 'r']
  else if c.toNat < 32 then
    ['\\', 'u', '0', '0', hexLower (c.toNat / 16), hexLower (c.toNat % 16)]
  else [c]

/-- A JSON string literal for `s`, with `JSON.stringify` escaping. -/
def jsonQuote (s : String) : String :=
  "\"" ++ String.mk (s.data.flatMap jsonEscapeChar) ++ "\""

/-! Client-side data model (src/App.tsx). -/

/-- Aspect-ratio toggle of the client form: `'16:9' | '9:16'`. -/
inductive Aspect where
  | r16x9
  | r9x16
deriving Repr, DecidableEq

/-- String value of an aspect-ratio choice. -/
def Aspect.str : Aspect → String
  | .r16x9 => "16:9"
  | .r9x16 => "9:16"

/-- The `ErrorDetails` interface of src/App.tsx (all fields but `url`
optional). -/
structure ErrorDetails where
  url : String
  status : Option Nat
  statusText : Option String
  contentType : Option String
  responseBody : Option String
  errorName : Option String
  errorMessage : Option String
  hint : Option String
  baseUrl : Option String
deriving Repr, DecidableEq

/-- React state of the `App` component that `handleGenerate` reads or
writes. -/
structure ClientState where
  prompt : String
  apiKey : String
  aspect : Aspect
  isLoading : Bool
  videoUrl : String
  error : String
  errorDetails : Option ErrorDetails
  showErrorDetails : Bool
deriving Repr, DecidableEq

/-- Parsed JSON body of the start response (`StartResponse` interface):
`success`, optional `operationName`, optional `error`. -/
structure StartData where
  success : Bool
  operationName : Option String
  error : Option String
deriving Repr, DecidableEq

/-- The HTTP response the environment returns for the start call.
`data` is the outcome of the JSON-parsing block of handleGenerate
(`none` when the body could not be parsed); `raw` is the value the local
`startRaw` variable holds after that block (empty when the body was read
through `startRes.json()`). -/
structure StartHttp where
  status : Nat
  statusText : String
  contentType : String
  data : Option StartData
  raw : String
deriving Repr, DecidableEq

/-- The fields of the poll response JSON that the loop reads: the `done`
flag, the URI at `response.generateVideoResponse.generatedSamples[0]
.video.uri`, and the `error` field (present in the upstream schema but
never read by the loop). -/
structure OpJson where
  done : Bool
  uri : Option String
  error : Option String
deriving Repr, DecidableEq

/-- One HTTP response of the polling endpoint. `text` is the raw body;
`body` is its JSON parse viewed through the accesses the loop makes
(`none` when the body text is empty or not valid JSON, matching the
`catch \x7b\x7d` that leaves `opJson = \x7b\x7d`). -/
structure PollHttp where
  status : Nat
  statusText : String
  contentType : String
  text : String
  body : Option OpJson
deriving Repr, DecidableEq

/-- The environment of one submission: the start response and the poll
response returned for each attempt index. -/
structure ClientEnv where
  start : StartHttp
  polls : Nat → PollHttp

/-- An outbound HTTP request as issued by `fetch` in handleGenerate. -/
structure HttpRequest where
  method : String
  url : String
  headers : List (String × String)
  body : Option String
deriving Repr, DecidableEq

/-- Observable events of a submission: outbound fetches and the fixed
sleeps of the poll loop. -/
inductive Event where
  | fetch (r : HttpRequest)
  | sleep (ms : Nat)
deriving Repr, DecidableEq

/-- `JSON.stringify(\x7bprompt: p, aspect_ratio: a\x7d)`. -/
def stringifyStartBody (p a : String) : String :=
  "\x7b\"prompt\":" ++ jsonQuote p ++ ",\"aspect_ratio\":" ++ jsonQuote a ++ "\x7d"

/-- The start request of handleGenerate: POST to `baseUrl ++ "/generate"`
with a single Content-Type header and the JSON body
`\x7bprompt, aspect_ratio\x7d`. -/
def startRequest (baseUrl promptTrimmed arStr : String) : HttpRequest :=
  { method := "POST"
    url := baseUrl ++ "/generate"
    headers := [("Content-Type", "application/json")]
    body := some (stringifyStartBody promptTrimmed arStr) }

/-- A poll request: plain GET with no headers and no body. -/
def pollRequest (pollUrl : String) : HttpRequest :=
  { method := "GET", url := pollUrl, headers := [], body := none }

/-- The poll attempt cap of handleGenerate (`maxAttempts = 60`). -/
def maxAttempts : Nat := 60

/-- The fixed poll interval of handleGenerate (`intervalMs = 10000`). -/
def intervalMs : Nat := 10000

/-- `opJson` as the loop sees it: the parse result, or the empty object
(no `done`, no nested URI) when the body was empty or invalid. -/
def parseOp (b : Option OpJson) : OpJson :=
  b.getD { done := false, uri := none, error := none }

/-- Outcome of the poll loop. -/
inductive PollOutcome where
  | ready (uri : String)
  | pollError (r : PollHttp)
  | malformedDone (r : PollHttp)
  | timeout
deriving Repr, DecidableEq

/-- The poll loop of handleGenerate, from attempt index `attempt` with
`rem` attempts remaining: fetch; on non-ok status throw the polling
error; on `done` with a falsy URI throw the malformed-completion error,
on `done` with a URI break with it; otherwise sleep `intervalMs` and
continue.  Exhausting the attempts leaves `videoUri` unset, which the
code after the loop turns into the timeout error. -/
def pollSteps (polls : Nat → PollHttp) (pollUrl : String) :
    Nat → Nat → List Event × PollOutcome
  | _, 0 => ([], .timeout)
  | attempt, rem + 1 =>
    let r := polls attempt
    if httpOk r.status = false then
      ([.fetch (pollRequest pollUrl)], .pollError r)
    else if (parseOp r.body).done then
      if (parseOp r.body).uri.getD "" = "" then
        ([.fetch (pollRequest pollUrl)], .malformedDone r)
      else
        ([.fetch (pollRequest pollUrl)], .ready ((parseOp r.body).uri.getD ""))
    else
      let rest := pollSteps polls pollUrl (attempt + 1) rem
      (.fetch (pollRequest pollUrl) :: .sleep intervalMs :: rest.1, rest.2)

/-- The start-failure test of handleGenerate:
`!startRes.ok || !startData?.success || !startData.operationName`
(a missing or empty operation name is falsy). -/
def startFailed (h : StartHttp) : Bool :=
  !(httpOk h.status) ||
    (match h.data with
     | none => true
     | some d => !d.success || (d.operationName.getD "") = "")

/-- Outcome of the networked part of a submission. -/
inductive GenOutcome where
  | startFail (h : StartHttp)
  | polled (pollUrl : String) (out : PollOutcome)
deriving Repr, DecidableEq

/-- The network phase of handleGenerate after validation: issue the start
request; on failure stop with the start response, otherwise poll the
operation endpoint up to `maxAttempts` times. -/
def runSubmission (baseUrl prompt : String) (ar : Aspect) (env : ClientEnv) :
    List Event × GenOutcome :=
  let sEv := Event.fetch (startRequest baseUrl (jsTrim prompt) ar.str)
  if startFailed env.start then ([sEv], .startFail env.start)
  else
    let opName :=
      match env.start.data with
      | some d => d.operationName.getD ""
      | none => ""
    let pollUrl := baseUrl ++ "/operation?name=" ++ encodeURIComponent opName
    let pres := pollSteps env.polls pollUrl 0 maxAttempts
    (sEv :: pres.1, .polled pollUrl pres.2)

/-- `JSON.stringify` of a parsed start body, rendering the fields the
embedding tracks in interface order, absent fields omitted. -/
def stringifyStartData (d : StartData) : String :=
  "\x7b\"success\":" ++ (if d.success then "true" else "false") ++
    (match d.operationName with
     | some o => ",\"operationName\":" ++ jsonQuote o
     | none => "") ++
    (match d.error with
     | some e => ",\"error\":" ++ jsonQuote e
     | none => "") ++ "\x7d"

/-- Message of the start-failure path:
`startData?.error || Failed to start generation (status)`. -/
def startFailMessage (h : StartHttp) : String :=
  jsOrS (h.data.bind StartData.error)
    ("Failed to start generation (" ++ toString h.status ++ ")")

/-- The `ErrorDetails` attached to the start-failure `AppError`:
`responseBody` is `startRaw || (startData ? JSON.stringify(startData) : "")`. -/
def startFailDetails (baseUrl : String) (h : StartHttp) : ErrorDetails :=
  { url := baseUrl ++ "/generate"
    status := some h.status
    statusText := some h.statusText
    contentType := some h.contentType
    responseBody := some (if h.raw = "" then
      (match h.data with
       | some d => stringifyStartData d
       | none => "") else h.raw)
    errorName := none
    errorMessage := none
    hint := none
    baseUrl := some baseUrl }

/-- The catch/finally of handleGenerate applied to the outcome of the
network phase, starting from the cleared state `st1`.  Each error branch
mirrors the `AppError` thrown at that point, the details it carries, and
the fallback details the generic `Error` branch of the catch installs
when the `AppError` carried none (the timeout case). -/
def applyOutcome (baseUrl : String) (st1 : ClientState) :
    GenOutcome → ClientState
  | .startFail h =>
    { st1 with
      isLoading := false
      error := startFailMessage h
      errorDetails := some (startFailDetails baseUrl h) }
  | .polled pollUrl out =>
    match out with
    | .ready u =>
      { st1 with
        isLoading := false
        videoUrl := baseUrl ++ "/video?uri=" ++ encodeURIComponent u }
    | .pollError r =>
      { st1 with
        isLoading := false
        error := "Operation polling failed (" ++ toString r.status ++ ")"
        errorDetails := some
          { url := pollUrl
            status := some r.status
            statusText := some r.statusText
            contentType := some r.contentType
            responseBody := some r.text
            errorName := none
            errorMessage := none
            hint := none
            baseUrl := some baseUrl } }
    | .malformedDone r =>
      { st1 with
        isLoading := false
        error := "Operation completed without video URI"
        errorDetails := some
          { url := pollUrl
            status := none
            statusText := none
            contentType := some r.contentType
            responseBody := some r.text
            errorName := none
            errorMessage := none
            hint := none
            baseUrl := some baseUrl } }
    | .timeout =>
      { st1 with
        isLoading := false
        error := "Timed out waiting for video generation to complete"
        errorDetails := some
          { url := baseUrl ++ "/generate"
            status := none
            statusText := none
            contentType := none
            responseBody := none
            errorName := some "AppError"
            errorMessage := some "Timed out waiting for video generation to complete"
            hint := none
            baseUrl := some baseUrl } }

/-- The `handleGenerate` handler of src/App.tsx as a pure function from
the pre-click state and the environment's responses to the list of
observable events and the post-run React state.  An empty-after-trim
prompt is rejected up front (`alert` and `return`) with no event and no
state change; otherwise the loading flag is set, previous results are
cleared, and the network phase runs. -/
def handleGenerate (baseUrl : String) (st : ClientState) (env : ClientEnv) :
    List Event × ClientState :=
  if jsTrim st.prompt = "" then ([], st)
  else
    let st1 := { st with
      isLoading := true
      error := ""
      videoUrl := ""
      errorDetails := none
      showErrorDetails := false }
    let r := runSubmission baseUrl st.prompt st.aspect env
    (r.1, applyOutcome baseUrl st1 r.2)

/-- Recogniser for poll fetches: the only GET requests the orchestrator
issues are the status requests of the poll loop. -/
def isPollFetch : Event → Bool
  | .fetch r => r.method == "GET"
  | .sleep _ => false

/-- Number of status requests in an event trace. -/
def countPolls (evs : List Event) : Nat :=
  evs.countP isPollFetch

/-- One poll response lets the loop continue when its status is 2xx and
the parsed body has no truthy `done` flag. -/
def pollContinues (r : PollHttp) : Bool :=
  httpOk r.status && !(parseOp r.body).done

/-! Edge-runtime generate proxy (api/generate.ts, the edge handler). -/

/-- The `GenerateRequestBody` interface: optional `prompt`,
`aspect_ratio` and `apiKey` fields of the parsed JSON body. -/
structure GenBody where
  prompt : Option String
  aspect_ratio : Option String
  apiKey : Option String
deriving Repr, DecidableEq

deriving instance DecidableEq for Except

/-- An incoming request to the generate proxy: method, the
`content-type` and `x-api-key` headers, and the outcome of `req.json()`
(`Except.error` carries the message of the exception the parse threw). -/
structure GenReq where
  method : String
  contentType : Option String
  xApiKey : Option String
  jsonBody : Except String GenBody
deriving Repr, DecidableEq

/-- The upstream JSON body as the proxy reads it: its `error` field and
its `JSON.stringify` rendering. -/
structure UpstreamJsonView where
  error : Option String
  rendered : String
deriving Repr, DecidableEq

/-- The upstream response to the proxied generate call.  `json = none`
models `upstreamResponse.json()` rejecting, which the
`.catch(() => (\x7b\x7d))` turns into an empty object. -/
structure GenUpstream where
  status : Nat
  json : Option UpstreamJsonView
deriving Repr, DecidableEq

/-- The empty object the `.catch` fallback produces. -/
def emptyUpstreamJson : UpstreamJsonView :=
  { error := none, rendered := "\x7b\x7d" }

/-- Body of a proxy response: either `JSON.stringify(\x7bsuccess:false,
error\x7d)` or the re-serialized upstream JSON. -/
inductive RespBody where
  | errJson (error : String)
  | okJson (rendered : String)
deriving Repr, DecidableEq

/-- A response of the edge generate proxy (all carry a JSON
content-type header). -/
structure EdgeResponse where
  status : Nat
  body : RespBody
deriving Repr, DecidableEq

/-- The outbound call the proxy makes to the upstream generate
endpoint. -/
structure UpstreamCall where
  url : String
  bearer : String
  prompt : String
  aspect_ratio : String
deriving Repr, DecidableEq

/-- Credential resolution of the edge handler:
`body?.apiKey || req.headers.get('x-api-key') || ''`, then
`clientApiKey || envApiKey` where `envApiKey` is
`process.env.VEO3_API_KEY || ''`. -/
def resolvedKey (envKey : Option String) (req : GenReq) (body : GenBody) :
    String :=
  let clientApiKey := jsOrS body.apiKey (jsOrS req.xApiKey "")
  let envApiKey := jsOrS envKey ""
  if clientApiKey = "" then envApiKey else clientApiKey

/-- The edge-runtime generate handler of api/generate.ts: method check,
content-type check, body parse, prompt validation, credential
resolution, then the upstream call whose response is either passed
through (2xx) or turned into `\x7bsuccess:false, error\x7d` with the
upstream status and `upstreamJson?.error ||` a default message.  The
first component is the upstream call when one is issued. -/
def generateHandler (envKey : Option String) (req : GenReq)
    (upstream : GenUpstream) : Option UpstreamCall × EdgeResponse :=
  if req.method ≠ "POST" then
    (none, ⟨405, .errJson "Method Not Allowed"⟩)
  else if strIncludes (jsOrS req.contentType "") "application/json" = false then
    (none, ⟨400, .errJson "Content-Type must be application/json"⟩)
  else
    match req.jsonBody with
    | .error e => (none, ⟨500, .errJson e⟩)
    | .ok body =>
      let apiKey := resolvedKey envKey req body
      if jsTrim (body.prompt.getD "") = "" then
        (none, ⟨400, .errJson "Missing required field: prompt"⟩)
      else if apiKey = "" then
        (none, ⟨401, .errJson "Missing API key. Provide in body.apiKey or x-api-key header, or set VEO3_API_KEY."⟩)
      else
        let call : UpstreamCall :=
          { url := "https://api.veo3.ai/generate"
            bearer := apiKey
            prompt := jsTrim (body.prompt.getD "")
            aspect_ratio := jsOrS body.aspect_ratio "16:9" }
        let uj := upstream.json.getD emptyUpstreamJson
        if httpOk upstream.status = false then
          (some call, ⟨upstream.status,
            .errJson (jsOrS uj.error ("Upstream error " ++ toString upstream.status))⟩)
        else
          (some call, ⟨200, .okJson uj.rendered⟩)

/-! Video stream proxy (api/video.ts). -/

/-- An incoming request to the video proxy: method and the `uri` query
parameter (`none` when absent). -/
structure VideoReq where
  method : String
  uriParam : Option String
deriving Repr, DecidableEq

/-- The upstream response to the video fetch: status, the
`content-type` header (`none` when absent), and the byte stream body. -/
structure VideoUpstream where
  status : Nat
  contentType : Option String
  body : List Nat
deriving Repr, DecidableEq

/-- Body of a video-proxy response: a plain-text message or the relayed
byte stream. -/
inductive VideoBody where
  | text (s : String)
  | stream (bytes : List Nat)
deriving Repr, DecidableEq

/-- A response of the video proxy. `contentType` is the header the
handler sets explicitly (`none` for the plain-text error responses). -/
structure VideoResponse where
  status : Nat
  contentType : Option String
  body : VideoBody
deriving Repr, DecidableEq

/-- The outbound fetch of the video proxy: the target URI and the
`x-goog-api-key` header when a server key is configured. -/
structure VideoCall where
  uri : String
  apiKeyHeader : Option String
deriving Repr, DecidableEq

/-- The video-proxy handler of api/video.ts: GET only, require a truthy
`uri` parameter, fetch it with the trimmed server key
(`GEMINI_API_KEY || API_KEY || ''`) attached when non-empty, and relay
the upstream body with the upstream status and the upstream
content-type defaulted to `application/octet-stream`.  `upstream = none`
models the fetch rejecting, answered by the 502 catch. -/
def videoHandler (geminiKey altKey : Option String) (req : VideoReq)
    (upstream : Option VideoUpstream) : Option VideoCall × VideoResponse :=
  if req.method ≠ "GET" then
    (none, ⟨405, none, .text "Method Not Allowed"⟩)
  else
    let uri := jsOrS req.uriParam ""
    let apiKey := jsTrim (jsOrS geminiKey (jsOrS altKey ""))
    if uri = "" then
      (none, ⟨400, none, .text "Missing uri"⟩)
    else
      let call : VideoCall :=
        { uri := uri
          apiKeyHeader := if apiKey = "" then none else some apiKey }
      match upstream with
      | none => (some call, ⟨502, none, .text "Proxy error"⟩)
      | some u =>
        (some call,
          ⟨u.status, some (jsOrS u.contentType "application/octet-stream"),
            .stream u.body⟩)

/-! Helper lemmas about the poll loop. -/

theorem countPolls_nil : countPolls [] = 0 := rfl

theorem countPolls_cons_poll (url : String) (l : List Event) :
    countPolls (.fetch (pollRequest url) :: l) = countPolls l + 1 := by
  simp [countPolls, isPollFetch, pollRequest, List.countP_cons]

theorem countPolls_cons_sleep (ms : Nat) (l : List Event) :
    countPolls (.sleep ms :: l) = countPolls l := by
  simp [countPolls, isPollFetch, List.countP_cons]

theorem countPolls_cons_start (b p a : String) (l : List Event) :
    countPolls (.fetch (startRequest b p a) :: l) = countPolls l := by
  simp [countPolls, isPollFetch, startRequest, List.countP_cons]

/-- The poll loop issues at most `rem` status requests. -/
theorem pollSteps_count_le (polls : Nat → PollHttp) (url : String) :
    ∀ rem a, countPolls (pollSteps polls url a rem).1 ≤ rem := by
  intro rem
  induction rem with
  | zero => intro a; simp [pollSteps, countPolls_nil]
  | succ n ih =>
    intro a
    simp only [pollSteps]
    split
    · simp [countPolls, isPollFetch, pollRequest, List.countP_cons]
    · split
      · split <;>
          simp [countPolls, isPollFetch, pollRequest, List.countP_cons]
      · rw [countPolls_cons_poll, countPolls_cons_sleep]
        exact Nat.succ_le_succ (ih (a + 1))

/-- Skipping `k` attempts that continue (2xx status, no truthy `done`)
leaves the outcome of the remaining loop and adds `k` status
requests. -/
theorem pollSteps_skip (polls : Nat → PollHttp) (url : String) :
    ∀ (k a rem : Nat), k ≤ rem →
    (∀ i, i < k → pollContinues (polls (a + i)) = true) →
    (pollSteps polls url a rem).2 =
      (pollSteps polls url (a + k) (rem - k)).2 ∧
    countPolls (pollSteps polls url a rem).1 =
      k + countPolls (pollSteps polls url (a + k) (rem - k)).1 := by
  intro k
  induction k with
  | zero => intro a rem _ _; simp
  | succ m ih =>
    intro a rem hk h
    obtain ⟨rem1, rfl⟩ : ∃ rem1, rem = rem1 + 1 := by
      cases rem with
      | zero => omega
      | succ r => exact ⟨r, rfl⟩
    have hc : pollContinues (polls a) = true := by
      have := h 0 (Nat.succ_pos m)
      simpa using this
    have hc' := hc
    simp only [pollContinues, Bool.and_eq_true, Bool.not_eq_true'] at hc'
    obtain ⟨hok, hdone⟩ := hc'
    have hnext : ∀ i, i < m → pollContinues (polls (a + 1 + i)) = true := by
      intro i hi
      have := h (i + 1) (Nat.succ_lt_succ hi)
      have harith : a + (i + 1) = a + 1 + i := by omega
      rwa [harith] at this
    have ihm := ih (a + 1) rem1 (Nat.le_of_succ_le_succ hk) hnext
    have hstep :
        pollSteps polls url a (rem1 + 1) =
          (.fetch (pollRequest url) :: .sleep intervalMs ::
            (pollSteps polls url (a + 1) rem1).1,
           (pollSteps polls url (a + 1) rem1).2) := by
      simp only [pollSteps, hok, hdone]
      simp
    rw [hstep]
    have harith1 : a + 1 + m = a + (m + 1) := by omega
    have harith2 : rem1 - m = rem1 + 1 - (m + 1) := by omega
    rw [harith1, harith2] at ihm
    refine ⟨ihm.1, ?_⟩
    rw [countPolls_cons_poll, countPolls_cons_sleep, ihm.2]
    omega

/-- If every attempt within the cap continues, the loop exhausts its
fuel and ends in the timeout outcome. -/
theorem pollSteps_timeout (polls : Nat → PollHttp) (url : String)
    (rem a : Nat)
    (h : ∀ i, i < rem → pollContinues (polls (a + i)) = true) :
    (pollSteps polls url a rem).2 = .timeout := by
  have hs := (pollSteps_skip polls url rem a rem (Nat.le_refl rem) h).1
  simpa [pollSteps] using hs

/-- Every event of the poll loop is the fixed sleep or a bare GET to the
poll URL. -/
theorem pollSteps_events_shape (polls : Nat → PollHttp) (url : String) :
    ∀ rem a ev, ev ∈ (pollSteps polls url a rem).1 →
      ev = .sleep intervalMs ∨ ev = .fetch (pollRequest url) := by
  intro rem
  induction rem with
  | zero => intro a ev h; simp [pollSteps] at h
  | succ n ih =>
    intro a ev h
    simp only [pollSteps] at h
    split at h
    · simp at h
      exact Or.inr h
    · split at h
      · split at h <;> (simp at h; exact Or.inr h)
      · simp at h
        rcases h with h | h | h
        · exact Or.inr h
        · exact Or.inl h
        · exact ih (a + 1) ev h

/-- The operation name the orchestrator extracts from the start
response. -/
def opNameOf (env : ClientEnv) : String :=
  match env.start.data with
  | some d => d.operationName.getD ""
  | none => ""

/-- The poll URL the orchestrator builds. -/
def pollUrlOf (b : String) (env : ClientEnv) : String :=
  b ++ "/operation?name=" ++ encodeURIComponent (opNameOf env)

/-- The state after the clearing writes at the top of handleGenerate. -/
def clearedState (st : ClientState) : ClientState :=
  { st with
    isLoading := true
    error := ""
    videoUrl := ""
    errorDetails := none
    showErrorDetails := false }

/-- Shape of a run whose prompt validates and whose start call
succeeds: the start fetch followed by the poll loop, with the final
state derived from the poll outcome. -/
theorem handleGenerate_success_shape (b : String) (st : ClientState)
    (env : ClientEnv) (hp : jsTrim st.prompt ≠ "")
    (hs : startFailed env.start = false) :
    handleGenerate b st env =
      (Event.fetch (startRequest b (jsTrim st.prompt) st.aspect.str) ::
        (pollSteps env.polls (pollUrlOf b env) 0 maxAttempts).1,
       applyOutcome b (clearedState st)
         (.polled (pollUrlOf b env)
           (pollSteps env.polls (pollUrlOf b env) 0 maxAttempts).2)) := by
  unfold handleGenerate runSubmission
  rw [if_neg hp]
  simp only [hs, Bool.false_eq_true, if_false, pollUrlOf, opNameOf,
    clearedState]

/-- Bound on the status requests of any run. -/
theorem handleGenerate_countPolls_le (b : String) (st : ClientState)
    (env : ClientEnv) :
    countPolls (handleGenerate b st env).1 ≤ maxAttempts := by
  by_cases hp : jsTrim st.prompt = ""
  · simp [handleGenerate, hp, countPolls_nil, maxAttempts]
  · by_cases hs : startFailed env.start = true
    · unfold handleGenerate runSubmission
      rw [if_neg hp]
      simp only [hs, if_true]
      simp [countPolls, isPollFetch, startRequest, List.countP_cons,
        maxAttempts]
    · rw [handleGenerate_success_shape b st env hp
        (Bool.not_eq_true _ ▸ hs)]
      rw [countPolls_cons_start]
      exact pollSteps_count_le env.polls (pollUrlOf b env) maxAttempts 0

/-! Concrete fixtures used by the witnesses. -/

/-- A client state holding a non-empty prompt. -/
def wState : ClientState :=
  { prompt := "a cat surfing"
    apiKey := ""
    aspect := .r16x9
    isLoading := false
    videoUrl := ""
    error := ""
    errorDetails := none
    showErrorDetails := false }

/-- A successful start response carrying operation name `op123`. -/
def okStart : StartHttp :=
  { status := 200
    statusText := "OK"
    contentType := "application/json"
    data := some { success := true, operationName := some "op123", error := none }
    raw := "" }

/-- A 2xx poll response that is not yet done. -/
def notDonePoll : PollHttp :=
  { status := 200
    statusText := "OK"
    contentType := "application/json"
    text := "\x7b\"done\":false\x7d"
    body := some { done := false, uri := none, error := none } }

/-- A 2xx poll response that is done with the given URI. -/
def donePoll (u : String) : PollHttp :=
  { status := 200
    statusText := "OK"
    contentType := "application/json"
    text := "\x7b\"done\":true\x7d"
    body := some { done := true, uri := some u, error := none } }

/-- An environment whose polls never complete. -/
def timeoutEnv : ClientEnv :=
  { start := okStart, polls := fun _ => notDonePoll }

/-- C1: the orchestrator's poll phase issues at most the attempt cap of
60 status requests in every run, and when the cap is reached without
any `done=true` response the run ends in the timeout error message, not
in a stored video URL. -/
theorem claimC1_poll_cap (baseUrl : String) (st : ClientState)
    (env : ClientEnv)
    (hp : jsTrim st.prompt ≠ "")
    (hs : startFailed env.start = false)
    (hall : ∀ i, i < maxAttempts → pollContinues (env.polls i) = true) :
    (∀ (st2 : ClientState) (env2 : ClientEnv),
      countPolls (handleGenerate baseUrl st2 env2).1 ≤ maxAttempts) ∧
    (handleGenerate baseUrl st env).2.error =
      "Timed out waiting for video generation to complete" ∧
    (handleGenerate baseUrl st env).2.videoUrl = "" := by
  refine ⟨fun st2 env2 => handleGenerate_countPolls_le baseUrl st2 env2, ?_⟩
  have htime :
      (pollSteps env.polls (pollUrlOf baseUrl env) 0 maxAttempts).2 =
        .timeout :=
    pollSteps_timeout env.polls (pollUrlOf baseUrl env) maxAttempts 0
      (by intro i hi; simpa using hall i hi)
  rw [handleGenerate_success_shape baseUrl st env hp hs, htime]
  simp [applyOutcome, clearedState]

/-- C1 witness: a concrete never-done environment reaches the timeout
error with the poll cap respected. -/
theorem claimC1_poll_cap_witness :
    (∀ (st2 : ClientState) (env2 : ClientEnv),
      countPolls (handleGenerate "/api" st2 env2).1 ≤ maxAttempts) ∧
    (handleGenerate "/api" wState timeoutEnv).2.error =
      "Timed out waiting for video generation to complete" ∧
    (handleGenerate "/api" wState timeoutEnv).2.videoUrl = "" :=
  claimC1_poll_cap "/api" wState timeoutEnv (by decide) (by decide)
    (by intro i _; exact (by decide : pollContinues notDonePoll = true))

/-- A first `done=true` response whose URI is present and non-empty
ends the loop with that URI after exactly `k + 1` status requests. -/
theorem pollSteps_ready (polls : Nat → PollHttp) (url : String)
    (k rem : Nat) (X : String) (hk : k < rem)
    (hbefore : ∀ i, i < k → pollContinues (polls i) = true)
    (hok : httpOk (polls k).status = true)
    (hdone : (parseOp (polls k).body).done = true)
    (huri : (parseOp (polls k).body).uri = some X)
    (hX : X ≠ "") :
    (pollSteps polls url 0 rem).2 = .ready X ∧
    countPolls (pollSteps polls url 0 rem).1 = k + 1 := by
  have hskip := pollSteps_skip polls url k 0 rem (Nat.le_of_lt hk)
    (by intro i hi; simpa using hbefore i hi)
  simp only [Nat.zero_add] at hskip
  obtain ⟨r, hr⟩ : ∃ r, rem - k = r + 1 := by
    refine ⟨rem - k - 1, ?_⟩; omega
  rw [hr] at hskip
  have hstep : pollSteps polls url k (r + 1) =
      ([.fetch (pollRequest url)], .ready X) := by
    simp only [pollSteps, hok, hdone, huri]
    simp [hX]
  rw [hstep] at hskip
  simpa [countPolls, isPollFetch, pollRequest, List.countP_cons] using hskip

/-- A first `done=true` response with no URI at the expected path ends
the loop with the malformed-completion outcome after exactly `k + 1`
status requests. -/
theorem pollSteps_malformed (polls : Nat → PollHttp) (url : String)
    (k rem : Nat) (hk : k < rem)
    (hbefore : ∀ i, i < k → pollContinues (polls i) = true)
    (hok : httpOk (polls k).status = true)
    (hdone : (parseOp (polls k).body).done = true)
    (huri : (parseOp (polls k).body).uri = none) :
    (pollSteps polls url 0 rem).2 = .malformedDone (polls k) ∧
    countPolls (pollSteps polls url 0 rem).1 = k + 1 := by
  have hskip := pollSteps_skip polls url k 0 rem (Nat.le_of_lt hk)
    (by intro i hi; simpa using hbefore i hi)
  simp only [Nat.zero_add] at hskip
  obtain ⟨r, hr⟩ : ∃ r, rem - k = r + 1 := by
    refine ⟨rem - k - 1, ?_⟩; omega
  rw [hr] at hskip
  have hstep : pollSteps polls url k (r + 1) =
      ([.fetch (pollRequest url)], .malformedDone (polls k)) := by
    simp only [pollSteps, hok, hdone, huri]
    simp
  rw [hstep] at hskip
  simpa [countPolls, isPollFetch, pollRequest, List.countP_cons] using hskip

/-- The stored video URL of the final state only depends on the cleared
state through its own video URL. -/
theorem applyOutcome_videoUrl_congr (b : String) (s1 s2 : ClientState)
    (o : GenOutcome) (h : s1.videoUrl = s2.videoUrl) :
    (applyOutcome b s1 o).videoUrl = (applyOutcome b s2 o).videoUrl := by
  cases o with
  | startFail hh => simp [applyOutcome, h]
  | polled url out => cases out <;> simp [applyOutcome, h]

/-- handleGenerate never reads the apiKey field: the event trace and
the stored video URL are unchanged under any rewrite of it. -/
theorem handleGenerate_apiKey_irrelevant (b : String) (st : ClientState)
    (kk : String) (env : ClientEnv) :
    (handleGenerate b { st with apiKey := kk } env).1 =
      (handleGenerate b st env).1 ∧
    (handleGenerate b { st with apiKey := kk } env).2.videoUrl =
      (handleGenerate b st env).2.videoUrl := by
  by_cases hp : jsTrim st.prompt = ""
  · simp [handleGenerate, hp]
  · constructor
    · simp [handleGenerate, hp]
    · simp only [handleGenerate, hp, if_neg, ite_false]
      exact applyOutcome_videoUrl_congr b _ _ _ (by simp)

/-- Each character contributes at least one character to its
percent-encoding. -/
theorem percentEncodeChar_len (c : Char) :
    1 ≤ (percentEncodeChar c).length := by
  unfold percentEncodeChar
  split <;> simp

/-- Percent-encoding never shortens a string. -/
theorem encodeURIComponent_len (s : String) :
    s.length ≤ (encodeURIComponent s).length := by
  show s.data.length ≤ (String.mk (s.data.flatMap percentEncodeChar)).length
  have key : ∀ l : List Char,
      l.length ≤ (l.flatMap percentEncodeChar).length := by
    intro l
    induction l with
    | nil => simp
    | cons c tl ih =>
      have hc := percentEncodeChar_len c
      simp only [List.flatMap_cons, List.length_append, List.length_cons]
      omega
  exact key s.data

/-- The environment of the specification scenario: a successful start
with operation `op123`, two pending polls, then a done poll carrying
the upstream URI. -/
def sampleEnv : ClientEnv :=
  { start := okStart
    polls := fun i =>
      if i < 2 then notDonePoll else donePoll "https://upstream/v1" }

/-- C2: a successful start followed by a first terminal poll with
`done=true` and a non-empty URI `X` stores a playable URL that routes
through the video proxy (`baseUrl ++ "/video?uri=" ++` the encoded
`X`), is never the raw upstream URI itself, and both the issued
requests and the stored URL are identical for any two values of the
client credential field. -/
theorem claimC2_proxy_url (baseUrl X : String) (st : ClientState)
    (env : ClientEnv) (k : Nat)
    (hp : jsTrim st.prompt ≠ "")
    (hs : startFailed env.start = false)
    (hk : k < maxAttempts)
    (hbefore : ∀ i, i < k → pollContinues (env.polls i) = true)
    (hok : httpOk (env.polls k).status = true)
    (hdone : (parseOp (env.polls k).body).done = true)
    (huri : (parseOp (env.polls k).body).uri = some X)
    (hX : X ≠ "") :
    (handleGenerate baseUrl st env).2.videoUrl =
      baseUrl ++ "/video?uri=" ++ encodeURIComponent X ∧
    (handleGenerate baseUrl st env).2.videoUrl ≠ X ∧
    (∀ k1 k2 : String,
      (handleGenerate baseUrl { st with apiKey := k1 } env).1 =
        (handleGenerate baseUrl { st with apiKey := k2 } env).1 ∧
      (handleGenerate baseUrl { st with apiKey := k1 } env).2.videoUrl =
        (handleGenerate baseUrl { st with apiKey := k2 } env).2.videoUrl) := by
  have hready := pollSteps_ready env.polls (pollUrlOf baseUrl env) k
    maxAttempts X hk hbefore hok hdone huri hX
  have hurl : (handleGenerate baseUrl st env).2.videoUrl =
      baseUrl ++ "/video?uri=" ++ encodeURIComponent X := by
    rw [handleGenerate_success_shape baseUrl st env hp hs, hready.1]
    simp [applyOutcome]
  refine ⟨hurl, ?_, ?_⟩
  · rw [hurl]
    intro heq
    have hlen := congrArg String.length heq
    rw [String.length_append, String.length_append] at hlen
    have h11 : ("/video?uri=" : String).length = 11 := by decide
    have henc := encodeURIComponent_len X
    omega
  · intro k1 k2
    have h1 := handleGenerate_apiKey_irrelevant baseUrl st k1 env
    have h2 := handleGenerate_apiKey_irrelevant baseUrl st k2 env
    exact ⟨h1.1.trans h2.1.symm, h1.2.trans h2.2.symm⟩

/-- C2 witness: the scenario environment at `k = 2` with
`X = "https://upstream/v1"`. -/
theorem claimC2_proxy_url_witness :
    (handleGenerate "/api" wState sampleEnv).2.videoUrl =
      "/api" ++ "/video?uri=" ++ encodeURIComponent "https://upstream/v1" ∧
    (handleGenerate "/api" wState sampleEnv).2.videoUrl ≠
      "https://upstream/v1" ∧
    (∀ k1 k2 : String,
      (handleGenerate "/api" { wState with apiKey := k1 } sampleEnv).1 =
        (handleGenerate "/api" { wState with apiKey := k2 } sampleEnv).1 ∧
      (handleGenerate "/api" { wState with apiKey := k1 } sampleEnv).2.videoUrl =
        (handleGenerate "/api" { wState with apiKey := k2 } sampleEnv).2.videoUrl) :=
  claimC2_proxy_url "/api" "https://upstream/v1" wState sampleEnv 2
    (by decide) (by decide) (by decide)
    (by
      intro i hi
      have h2 : i < 2 := hi
      simp only [sampleEnv, h2, if_true]
      decide)
    (by decide) (by decide) (by decide) (by decide)

/-- C5: in the scenario where the start call yields operation `op123`,
the first two polls are pending and the third completes with
`https://upstream/v1`, the run ends ready (loading cleared, no error)
with URL `baseUrl ++ "/video?uri=https%3A%2F%2Fupstream%2Fv1"` after
exactly three status requests. -/
theorem claimC5_scenario (baseUrl : String) :
    (handleGenerate baseUrl wState sampleEnv).2.videoUrl =
      baseUrl ++ "/video?uri=https%3A%2F%2Fupstream%2Fv1" ∧
    countPolls (handleGenerate baseUrl wState sampleEnv).1 = 3 ∧
    (handleGenerate baseUrl wState sampleEnv).2.isLoading = false ∧
    (handleGenerate baseUrl wState sampleEnv).2.error = "" := by
  have hbefore : ∀ i, i < 2 → pollContinues (sampleEnv.polls i) = true := by
    intro i hi
    simp only [sampleEnv, hi, if_true]
    decide
  have hready := pollSteps_ready sampleEnv.polls (pollUrlOf baseUrl sampleEnv)
    2 maxAttempts "https://upstream/v1" (by decide) hbefore
    (by decide) (by decide) (by decide) (by decide)
  have hshape := handleGenerate_success_shape baseUrl wState sampleEnv
    (by decide) (by decide)
  have henc : encodeURIComponent "https://upstream/v1" =
      "https%3A%2F%2Fupstream%2Fv1" := by decide
  refine ⟨?_, ?_, ?_, ?_⟩
  · rw [hshape, hready.1]
    simp only [applyOutcome, henc]
    rw [String.append_assoc]
    have hlit : ("/video?uri=" : String) ++ "https%3A%2F%2Fupstream%2Fv1" =
        "/video?uri=https%3A%2F%2Fupstream%2Fv1" := by decide
    rw [hlit]
  · rw [hshape, countPolls_cons_start, hready.2]
  · rw [hshape, hready.1]
    simp [applyOutcome]
  · rw [hshape, hready.1]
    simp [applyOutcome, clearedState]

/-- A 2xx poll response that is done but has no URI at the expected
nested path and no error either. -/
def doneNoUriPoll : PollHttp :=
  { status := 200
    statusText := "OK"
    contentType := "application/json"
    text := "\x7b\"done\":true\x7d"
    body := some { done := true, uri := none, error := none } }

/-- An environment whose first poll is done without a URI. -/
def malformedEnv : ClientEnv :=
  { start := okStart, polls := fun _ => doneNoUriPoll }

/-- C6: a first `done=true` poll with no URI at the expected path (and
no error either) stops the run with the malformed-completion error
after exactly `k + 1` status requests — it is never retried past and
never reported as success. -/
theorem claimC6_malformed_done (baseUrl : String) (st : ClientState)
    (env : ClientEnv) (k : Nat)
    (hp : jsTrim st.prompt ≠ "")
    (hs : startFailed env.start = false)
    (hk : k < maxAttempts)
    (hbefore : ∀ i, i < k → pollContinues (env.polls i) = true)
    (hok : httpOk (env.polls k).status = true)
    (hdone : (parseOp (env.polls k).body).done = true)
    (huri : (parseOp (env.polls k).body).uri = none)
    (_herr : (parseOp (env.polls k).body).error = none) :
    (handleGenerate baseUrl st env).2.error =
      "Operation completed without video URI" ∧
    countPolls (handleGenerate baseUrl st env).1 = k + 1 ∧
    (handleGenerate baseUrl st env).2.videoUrl = "" := by
  have hmal := pollSteps_malformed env.polls (pollUrlOf baseUrl env) k
    maxAttempts hk hbefore hok hdone huri
  have hshape := handleGenerate_success_shape baseUrl st env hp hs
  refine ⟨?_, ?_, ?_⟩
  · rw [hshape, hmal.1]
    simp [applyOutcome]
  · rw [hshape, countPolls_cons_start, hmal.2]
  · rw [hshape, hmal.1]
    simp [applyOutcome, clearedState]

/-- C6 witness: a first-poll malformed completion. -/
theorem claimC6_malformed_done_witness :
    (handleGenerate "/api" wState malformedEnv).2.error =
      "Operation completed without video URI" ∧
    countPolls (handleGenerate "/api" wState malformedEnv).1 = 0 + 1 ∧
    (handleGenerate "/api" wState malformedEnv).2.videoUrl = "" :=
  claimC6_malformed_done "/api" wState malformedEnv 0
    (by decide) (by decide) (by decide)
    (by intro i hi; exact absurd hi (Nat.not_lt_zero i))
    (by decide) (by decide) (by decide) (by decide)

/-- Every event of a run is the fixed sleep, the start POST, or a bare
poll GET. -/
theorem handleGenerate_events_shape (b : String) (st : ClientState)
    (env : ClientEnv) :
    ∀ ev ∈ (handleGenerate b st env).1,
      ev = .sleep intervalMs ∨
      ev = .fetch (startRequest b (jsTrim st.prompt) st.aspect.str) ∨
      ∃ u, ev = .fetch (pollRequest u) := by
  intro ev hev
  by_cases hp : jsTrim st.prompt = ""
  · simp [handleGenerate, hp] at hev
  · by_cases hs : startFailed env.start = true
    · unfold handleGenerate runSubmission at hev
      rw [if_neg hp] at hev
      simp only [hs, if_true] at hev
      simp at hev
      exact Or.inr (Or.inl hev)
    · rw [handleGenerate_success_shape b st env hp
        (Bool.not_eq_true _ ▸ hs)] at hev
      simp only [List.mem_cons] at hev
      rcases hev with hev | hev
      · exact Or.inr (Or.inl hev)
      · rcases pollSteps_events_shape env.polls (pollUrlOf b env)
          maxAttempts 0 ev hev with h | h
        · exact Or.inl h
        · exact Or.inr (Or.inr ⟨pollUrlOf b env, h⟩)

/-- C9: the client never transmits the API-key field: for any two
values of it the issued requests and the stored video URL coincide, and
every issued request is the fixed sleep marker, the start POST carrying
only a Content-Type header and the `\x7bprompt, aspect_ratio\x7d` body,
or a bare GET poll. -/
theorem claimC9_key_never_sent (baseUrl : String) (st : ClientState)
    (k1 k2 : String) (env : ClientEnv) :
    (handleGenerate baseUrl { st with apiKey := k1 } env).1 =
      (handleGenerate baseUrl { st with apiKey := k2 } env).1 ∧
    (handleGenerate baseUrl { st with apiKey := k1 } env).2.videoUrl =
      (handleGenerate baseUrl { st with apiKey := k2 } env).2.videoUrl ∧
    (∀ ev ∈ (handleGenerate baseUrl { st with apiKey := k1 } env).1,
      ev = .sleep intervalMs ∨
      ev = .fetch
        { method := "POST"
          url := baseUrl ++ "/generate"
          headers := [("Content-Type", "application/json")]
          body := some (stringifyStartBody (jsTrim st.prompt) st.aspect.str) } ∨
      ∃ u, ev = .fetch { method := "GET", url := u, headers := [], body := none }) := by
  have h1 := handleGenerate_apiKey_irrelevant baseUrl st k1 env
  have h2 := handleGenerate_apiKey_irrelevant baseUrl st k2 env
  refine ⟨h1.1.trans h2.1.symm, h1.2.trans h2.2.symm, ?_⟩
  intro ev hev
  have hshape := handleGenerate_events_shape baseUrl
    { st with apiKey := k1 } env ev hev
  simpa [startRequest, pollRequest] using hshape

/-- C7: an empty-after-trim prompt is rejected on the client before any
network call, leaving the state exactly unchanged, and the generate
proxy rejects a missing or all-whitespace prompt with 400 before any
upstream call. -/
theorem claimC7_empty_prompt (baseUrl : String) (st : ClientState)
    (env : ClientEnv) (envKey : Option String) (req : GenReq)
    (up : GenUpstream) (body : GenBody)
    (hp : jsTrim st.prompt = "")
    (hm : req.method = "POST")
    (hct : strIncludes (jsOrS req.contentType "") "application/json" = true)
    (hb : req.jsonBody = .ok body)
    (hpr : jsTrim (body.prompt.getD "") = "") :
    handleGenerate baseUrl st env = ([], st) ∧
    generateHandler envKey req up =
      (none, ⟨400, .errJson "Missing required field: prompt"⟩) := by
  constructor
  · simp [handleGenerate, hp]
  · simp [generateHandler, hm, hct, hb, hpr]

/-- A 200 upstream response with an empty JSON object body. -/
def up200stub : GenUpstream :=
  { status := 200, json := some { error := none, rendered := "\x7b\x7d" } }

/-- C7 witness: an all-whitespace prompt on both sides. -/
theorem claimC7_empty_prompt_witness :
    handleGenerate "/api" { wState with prompt := "   " } timeoutEnv =
      ([], { wState with prompt := "   " }) ∧
    generateHandler (some "sk")
      { method := "POST"
        contentType := some "application/json"
        xApiKey := none
        jsonBody := .ok { prompt := some "  ", aspect_ratio := none, apiKey := none } }
      up200stub =
      (none, ⟨400, .errJson "Missing required field: prompt"⟩) :=
  claimC7_empty_prompt "/api" { wState with prompt := "   " } timeoutEnv
    (some "sk")
    { method := "POST"
      contentType := some "application/json"
      xApiKey := none
      jsonBody := .ok { prompt := some "  ", aspect_ratio := none, apiKey := none } }
    up200stub
    { prompt := some "  ", aspect_ratio := none, apiKey := none }
    (by decide) (by decide) (by decide) (by decide) (by decide)

/-- C8: for a GET with a truthy uri, the video proxy relays the
upstream byte stream verbatim with the upstream status code and the
upstream content type, defaulted to `application/octet-stream`. -/
theorem claimC8_video_relay (gk ak : Option String) (req : VideoReq)
    (u : VideoUpstream)
    (hm : req.method = "GET")
    (hu : jsOrS req.uriParam "" ≠ "") :
    (videoHandler gk ak req (some u)).2.status = u.status ∧
    (videoHandler gk ak req (some u)).2.body = .stream u.body ∧
    (videoHandler gk ak req (some u)).2.contentType =
      some (jsOrS u.contentType "application/octet-stream") := by
  refine ⟨?_, ?_, ?_⟩ <;> simp [videoHandler, hm, hu]

/-- C8 witness: a 404 upstream with no content type is relayed as 404
with the octet-stream default. -/
theorem claimC8_video_relay_witness :
    (videoHandler (some "sk") none
      { method := "GET", uriParam := some "https://upstream/v1" }
      (some { status := 404, contentType := none, body := [7, 8, 9] })).2.status =
      ({ status := 404, contentType := none, body := [7, 8, 9] } : VideoUpstream).status ∧
    (videoHandler (some "sk") none
      { method := "GET", uriParam := some "https://upstream/v1" }
      (some { status := 404, contentType := none, body := [7, 8, 9] })).2.body =
      .stream ({ status := 404, contentType := none, body := [7, 8, 9] } : VideoUpstream).body ∧
    (videoHandler (some "sk") none
      { method := "GET", uriParam := some "https://upstream/v1" }
      (some { status := 404, contentType := none, body := [7, 8, 9] })).2.contentType =
      some (jsOrS ({ status := 404, contentType := none, body := [7, 8, 9] } : VideoUpstream).contentType
        "application/octet-stream") :=
  claimC8_video_relay (some "sk") none
    { method := "GET", uriParam := some "https://upstream/v1" }
    { status := 404, contentType := none, body := [7, 8, 9] }
    (by decide) (by decide)

/-- An option that is falsy under JavaScript coercion yields the
alternative in every disjunction. -/
theorem jsOrS_falsy (o : Option String) (d : String)
    (h : jsOrS o "" = "") : jsOrS o d = d := by
  cases o with
  | none => rfl
  | some s =>
    by_cases hs : s = ""
    · simp [jsOrS, hs]
    · simp [jsOrS, hs] at h

/-- The upstream call of the edge generate handler. -/
def upstreamCallOf (envKey : Option String) (req : GenReq)
    (body : GenBody) : UpstreamCall :=
  { url := "https://api.veo3.ai/generate"
    bearer := resolvedKey envKey req body
    prompt := jsTrim (body.prompt.getD "")
    aspect_ratio := jsOrS body.aspect_ratio "16:9" }

/-- A request body carrying an explicit client credential. -/
def gen4Body : GenBody :=
  { prompt := some "a cat surfing"
    aspect_ratio := some "16:9"
    apiKey := some "clientKey" }

/-- A request carrying `gen4Body` and an `x-api-key` header. -/
def gen4Req : GenReq :=
  { method := "POST"
    contentType := some "application/json"
    xApiKey := some "headerKey"
    jsonBody := .ok gen4Body }

/-- C4: credential resolution is deterministic and ordered — a truthy
body credential wins outright, else a truthy `x-api-key` header, else
the configured secret; the upstream call carries the resolved
credential as its bearer, and when nothing resolves the handler answers
401 with no upstream call. -/
theorem claimC4_credential_order (envKey : Option String) (req : GenReq)
    (body : GenBody) (up : GenUpstream)
    (hm : req.method = "POST")
    (hct : strIncludes (jsOrS req.contentType "") "application/json" = true)
    (hb : req.jsonBody = .ok body)
    (hpr : jsTrim (body.prompt.getD "") ≠ "") :
    (∀ kb, body.apiKey = some kb → kb ≠ "" →
      resolvedKey envKey req body = kb) ∧
    (∀ kh, jsOrS body.apiKey "" = "" → req.xApiKey = some kh → kh ≠ "" →
      resolvedKey envKey req body = kh) ∧
    (resolvedKey envKey req body ≠ "" →
      (generateHandler envKey req up).1 =
        some (upstreamCallOf envKey req body) ∧
      (upstreamCallOf envKey req body).bearer =
        resolvedKey envKey req body) ∧
    (resolvedKey envKey req body = "" →
      generateHandler envKey req up =
        (none, ⟨401, .errJson "Missing API key. Provide in body.apiKey or x-api-key header, or set VEO3_API_KEY."⟩)) := by
  refine ⟨?_, ?_, ?_, ?_⟩
  · intro kb hkb hne
    simp [resolvedKey, hkb, jsOrS, hne]
  · intro kh hfalsy hkh hne
    rw [resolvedKey, jsOrS_falsy body.apiKey _ hfalsy, hkh]
    simp [jsOrS, hne]
  · intro hne
    have hsplit : (generateHandler envKey req up).1 =
        some (upstreamCallOf envKey req body) := by
      by_cases hok : httpOk up.status = false <;>
        simp [generateHandler, hm, hct, hb, hpr, hne, upstreamCallOf, hok]
    exact ⟨hsplit, rfl⟩
  · intro hzero
    simp [generateHandler, hm, hct, hb, hpr, hzero]

/-- C4 witness: a truthy body credential with a header and a server
secret also present. -/
theorem claimC4_credential_order_witness :
    (∀ kb, gen4Body.apiKey = some kb → kb ≠ "" →
      resolvedKey (some "envKey") gen4Req gen4Body = kb) ∧
    (∀ kh, jsOrS gen4Body.apiKey "" = "" → gen4Req.xApiKey = some kh →
      kh ≠ "" → resolvedKey (some "envKey") gen4Req gen4Body = kh) ∧
    (resolvedKey (some "envKey") gen4Req gen4Body ≠ "" →
      (generateHandler (some "envKey") gen4Req up200stub).1 =
        some (upstreamCallOf (some "envKey") gen4Req gen4Body) ∧
      (upstreamCallOf (some "envKey") gen4Req gen4Body).bearer =
        resolvedKey (some "envKey") gen4Req gen4Body) ∧
    (resolvedKey (some "envKey") gen4Req gen4Body = "" →
      generateHandler (some "envKey") gen4Req up200stub =
        (none, ⟨401, .errJson "Missing API key. Provide in body.apiKey or x-api-key header, or set VEO3_API_KEY."⟩)) :=
  claimC4_credential_order (some "envKey") gen4Req gen4Body up200stub
    (by decide) (by decide) (by decide) (by decide)

/-- A 401 upstream response with no error message in its JSON body. -/
def up401NoMsg : GenUpstream :=
  { status := 401, json := some { error := none, rendered := "\x7b\x7d" } }

/-- C3 counterexample: on an upstream 401 with no upstream message the
proxy's message is the literal `Upstream error 401`, not the
status-derived default `invalid credential` the claim states. -/
theorem claimC3_counterexample :
    (generateHandler none gen4Req up401NoMsg).2 =
      ⟨401, .errJson "Upstream error 401"⟩ ∧
    (generateHandler none gen4Req up401NoMsg).2.body ≠
      .errJson "invalid credential" := by
  decide

/-- C3 as amended: for every upstream non-2xx the proxy relays the
upstream status code and answers `\x7bsuccess:false, error\x7d` whose
message is the upstream's own non-empty `error` field verbatim when
present, and otherwise the single default `Upstream error <status>`
for every status (there are no per-status default messages). -/
theorem claimC3_error_passthrough (envKey : Option String) (req : GenReq)
    (body : GenBody) (up : GenUpstream)
    (hm : req.method = "POST")
    (hct : strIncludes (jsOrS req.contentType "") "application/json" = true)
    (hb : req.jsonBody = .ok body)
    (hpr : jsTrim (body.prompt.getD "") ≠ "")
    (hkey : resolvedKey envKey req body ≠ "")
    (hnok : httpOk up.status = false) :
    (generateHandler envKey req up).2.status = up.status ∧
    (generateHandler envKey req up).2.body =
      .errJson (jsOrS (up.json.getD emptyUpstreamJson).error
        ("Upstream error " ++ toString up.status)) ∧
    (∀ m, (up.json.getD emptyUpstreamJson).error = some m → m ≠ "" →
      (generateHandler envKey req up).2.body = .errJson m) := by
  refine ⟨?_, ?_, ?_⟩
  · simp [generateHandler, hm, hct, hb, hpr, hkey, hnok]
  · simp [generateHandler, hm, hct, hb, hpr, hkey, hnok]
  · intro m hmfield hmne
    have hverb : jsOrS (some m)
        ("Upstream error " ++ toString up.status) = m := by
      simp [jsOrS, hmne]
    simp [generateHandler, hm, hct, hb, hpr, hkey, hnok, hmfield, hverb]

/-- A 429 upstream response with the message `rate limited`. -/
def up429 : GenUpstream :=
  { status := 429
    json := some { error := some "rate limited"
                   rendered := "\x7b\"error\":\"rate limited\"\x7d" } }

/-- C3 witness: a 429 with upstream message `rate limited` is relayed
as 429 with that verbatim message. -/
theorem claimC3_error_passthrough_witness :
    (generateHandler (some "envKey") gen4Req up429).2.status =
      up429.status ∧
    (generateHandler (some "envKey") gen4Req up429).2.body =
      .errJson (jsOrS (up429.json.getD emptyUpstreamJson).error
        ("Upstream error " ++ toString up429.status)) ∧
    (∀ m, (up429.json.getD emptyUpstreamJson).error = some m → m ≠ "" →
      (generateHandler (some "envKey") gen4Req up429).2.body =
        .errJson m) :=
  claimC3_error_passthrough (some "envKey") gen4Req gen4Body up429
    (by decide) (by decide) (by decide) (by decide) (by decide) (by decide)

/-- C10: a 2xx poll response whose body is empty or invalid JSON is
handled exactly as an explicit `\x7bdone:false\x7d` body (same events,
same outcome for the entire loop), and that attempt is followed by the
fixed sleep and the continuation of the polling. -/
theorem claimC10_invalid_json (polls polls2 : Nat → PollHttp)
    (url : String) (k : Nat)
    (h2xx : httpOk (polls k).status = true)
    (hinv : (polls k).body = none)
    (heq : ∀ i, i ≠ k → polls2 i = polls i)
    (hk2 : polls2 k =
      { polls k with body := some { done := false, uri := none, error := none } }) :
    (∀ a rem, pollSteps polls url a rem = pollSteps polls2 url a rem) ∧
    (∀ rem, pollSteps polls url k (rem + 1) =
      (.fetch (pollRequest url) :: .sleep intervalMs ::
        (pollSteps polls url (k + 1) rem).1,
       (pollSteps polls url (k + 1) rem).2)) ∧
    (∀ (b : String) (st : ClientState) (start : StartHttp),
      handleGenerate b st { start := start, polls := polls } =
        handleGenerate b st { start := start, polls := polls2 }) := by
  have hsame : ∀ (url2 : String) (rem a : Nat),
      pollSteps polls url2 a rem = pollSteps polls2 url2 a rem := by
    intro url2 rem
    induction rem with
    | zero => intro a; rfl
    | succ n ih =>
      intro a
      by_cases ha : a = k
      · subst ha
        simp only [pollSteps, hk2, hinv, h2xx, parseOp]
        simp only [Option.getD_some, Option.getD_none]
        rw [ih (a + 1)]
        simp
      · simp only [pollSteps]
        rw [heq a ha, ih (a + 1)]
  refine ⟨fun a rem => hsame url rem a, ?_, ?_⟩
  · intro rem
    simp only [pollSteps, hinv, h2xx, parseOp]
    simp
  · intro b st start
    by_cases hp : jsTrim st.prompt = ""
    · simp [handleGenerate, hp]
    · unfold handleGenerate runSubmission
      rw [if_neg hp, if_neg hp]
      simp only []
      by_cases hs : startFailed start = true
      · simp [hs]
      · simp only [hs, Bool.false_eq_true, if_false]
        rw [hsame _ maxAttempts 0]

/-- A 2xx poll response whose body is not valid JSON. -/
def invalidPoll : PollHttp :=
  { status := 200
    statusText := "OK"
    contentType := "text/html"
    text := "<html></html>"
    body := none }

/-- Polls that always answer with the invalid-JSON 2xx response. -/
def wInvPolls : Nat → PollHttp := fun _ => invalidPoll

/-- The same polls with the first response replaced by an explicit
`done:false` body. -/
def wInvPolls2 : Nat → PollHttp := fun i =>
  if i = 0 then
    { invalidPoll with body := some { done := false, uri := none, error := none } }
  else invalidPoll

/-- C10 witness: an invalid-JSON first poll behaves as `done:false`. -/
theorem claimC10_invalid_json_witness :
    (∀ a rem, pollSteps wInvPolls "/api/operation?name=op123" a rem =
      pollSteps wInvPolls2 "/api/operation?name=op123" a rem) ∧
    (∀ rem, pollSteps wInvPolls "/api/operation?name=op123" 0 (rem + 1) =
      (.fetch (pollRequest "/api/operation?name=op123") ::
        .sleep intervalMs ::
        (pollSteps wInvPolls "/api/operation?name=op123" (0 + 1) rem).1,
       (pollSteps wInvPolls "/api/operation?name=op123" (0 + 1) rem).2)) ∧
    (∀ (b : String) (st : ClientState) (start : StartHttp),
      handleGenerate b st { start := start, polls := wInvPolls } =
        handleGenerate b st { start := start, polls := wInvPolls2 }) :=
  claimC10_invalid_json wInvPolls wInvPolls2 "/api/operation?name=op123" 0
    (by decide) (by decide)
    (by intro i hi; simp [wInvPolls2, wInvPolls, hi])
    (by decide)

end Veo
